import Mathlib

set_option maxRecDepth 100000

/-!
Verification of the markdown-section extraction and content-packaging
pipeline of the blog-poster repository (the `save_content_to_files`
functions of `researcherqwen.py`, `main.py`, `researcherkilo.py` and the
`create_download_zip` function of `streamlit_app.py`, together with the
shared topic-slug computation).

Python strings are modelled as `List Char`.  `str.find` returns
`Option Nat`: Python's `-1` sentinel becomes `none`, and every comparison
`marker_pos > k` on a nonnegative `k` (always false for `-1` in the
source) becomes the `none` branch of a `match`.  A Python slice `s[a:b]`
with nonnegative bounds becomes `(s.drop a).take (b - a)` (empty when
`b < a`, exactly as in Python).  `str.strip()` trims the same whitespace
characters Python does on ASCII text.
-/

/-- Whitespace test used by Python's `str.strip` (ASCII range). -/
def pyIsSpace (c : Char) : Bool :=
  c == ' ' || c == '\t' || c == '\n' || c == '\r' || c == '\x0b' || c == '\x0c'

def pyLstrip (s : List Char) : List Char := s.dropWhile pyIsSpace

def pyRstrip (s : List Char) : List Char := (s.reverse.dropWhile pyIsSpace).reverse

/-- Python `str.strip()`: remove leading and trailing whitespace. -/
def pyStrip (s : List Char) : List Char := pyRstrip (pyLstrip s)

/-- Python slice `s[a:b]` for nonnegative clamped bounds. -/
def pySlice (s : List Char) (a b : Nat) : List Char := (s.drop a).take (b - a)

/-- Helper for `pyFind`: first index `≥ i` (counting from the original
start) at which `needle` occurs in the remaining haystack. -/
def subFindAux (needle : List Char) : List Char → Nat → Option Nat
  | [], i => if needle.isPrefixOf ([] : List Char) then some i else none
  | c :: t, i => if needle.isPrefixOf (c :: t) then some i else subFindAux needle t (i + 1)

/-- Python `hay.find(needle)`: index of the first occurrence, `none` for `-1`. -/
def pyFind (hay needle : List Char) : Option Nat := subFindAux needle hay 0

/-- Python `hay.find(needle, start)`: first occurrence at index `≥ start`. -/
def pyFindFrom (hay needle : List Char) (start : Nat) : Option Nat :=
  (subFindAux needle (hay.drop start) 0).map (· + start)

/-! ## Section markers (the literal header strings of the prompt template) -/

def blogMarker : List Char := "# BLOG POST".data

def linkedinMarker : List Char := "# LINKEDIN POSTS".data

def twitterMarker : List Char := "# X/TWITTER POSTS".data

def mjMarker : List Char := "# MIDJOURNEY PROMPTS".data

/-! ## `researcherqwen.py` extraction (`save_content_to_files`, lines 290-376) -/

/-- The candidate end markers for the blog section, in the source's order. -/
def qwenEndMarkersBlog : List (List Char) := [linkedinMarker, twitterMarker, mjMarker]

/-- The candidate end markers for the social section, in the source's order. -/
def qwenEndMarkersSocial : List (List Char) := [twitterMarker, mjMarker]

/-- Blog end-position loop (lines 296-303): for each candidate marker in
list order, `marker_pos = content_str.find(marker)`; the first one with
`marker_pos > blog_start` wins (`break`); default is `len(content_str)`. -/
def qwenBlogEndLoop (content : List Char) (blog_start : Nat) : List (List Char) → Nat
  | [] => content.length
  | m :: ms =>
    match pyFind content m with
    | some marker_pos =>
        if blog_start < marker_pos then marker_pos
        else qwenBlogEndLoop content blog_start ms
    | none => qwenBlogEndLoop content blog_start ms

/-- Blog capture (lines 292-305): content from just after `# BLOG POST`
to the loop's end position, stripped.  `none` when the marker is absent. -/
def qwenBlogCapture (content : List Char) : Option (List Char) :=
  (pyFind content blogMarker).map fun pos =>
    let blog_start := pos + blogMarker.length
    pyStrip (pySlice content blog_start (qwenBlogEndLoop content blog_start qwenEndMarkersBlog))

/-- Blog acceptance (lines 307-317): saved only if `len(blog_content) > 100`. -/
def qwenExtractBlog (content : List Char) : Bool × List Char :=
  match qwenBlogCapture content with
  | none => (false, [])
  | some c => if 100 < c.length then (true, c) else (false, [])

/-- Social end-position loop (lines 328-335):
`marker_pos = content_str.find(marker, social_start + 1)` for each
candidate in order; the first with `marker_pos > social_start` wins. -/
def qwenSocialEndLoop (content : List Char) (social_start : Nat) : List (List Char) → Nat
  | [] => content.length
  | m :: ms =>
    match pyFindFrom content m (social_start + 1) with
    | some marker_pos =>
        if social_start < marker_pos then marker_pos
        else qwenSocialEndLoop content social_start ms
    | none => qwenSocialEndLoop content social_start ms

/-- The Twitter-merge adjustment of the social end (lines 337-346). -/
def qwenSocialEndMerged (content : List Char) (social_end : Nat) : Nat :=
  match pyFind content twitterMarker with
  | none => social_end
  | some twitter_start =>
    if twitter_start < social_end || social_end == content.length then
      match pyFind content mjMarker with
      | some midjourney_start =>
          if twitter_start < midjourney_start then midjourney_start
          else content.length
      | none => content.length
    else social_end

/-- Full social end position: loop result then the Twitter merge. -/
def qwenSocialEndFull (content : List Char) (social_start : Nat) : Nat :=
  qwenSocialEndMerged content (qwenSocialEndLoop content social_start qwenEndMarkersSocial)

/-- Social capture (lines 324-348): note the slice starts at
`social_start`, the position of `# LINKEDIN POSTS` itself. -/
def qwenSocialCapture (content : List Char) : Option (List Char) :=
  (pyFind content linkedinMarker).map fun social_start =>
    pyStrip (pySlice content social_start (qwenSocialEndFull content social_start))

/-- Social acceptance (line 350): saved only if `len(social_content) > 50`. -/
def qwenExtractSocial (content : List Char) : Bool × List Char :=
  match qwenSocialCapture content with
  | none => (false, [])
  | some c => if 50 < c.length then (true, c) else (false, [])

/-- MidJourney capture (lines 363-365): `content_str[midjourney_start:].strip()`,
again starting at the marker itself. -/
def qwenMjCapture (content : List Char) : Option (List Char) :=
  (pyFind content mjMarker).map fun pos => pyStrip (content.drop pos)

/-- MidJourney acceptance (line 367): saved only if length `> 30`. -/
def qwenExtractMj (content : List Char) : Bool × List Char :=
  match qwenMjCapture content with
  | none => (false, [])
  | some c => if 30 < c.length then (true, c) else (false, [])

/-- `files_created` (lines 379-385): `1` for the complete file plus one
per extracted section; the README written afterwards is not counted. -/
def qwenFilesCreated (content : List Char) : Nat :=
  1 + (if (qwenExtractBlog content).1 then 1 else 0)
    + (if (qwenExtractSocial content).1 then 1 else 0)
    + (if (qwenExtractMj content).1 then 1 else 0)

/-- Header written before the raw blob in `complete_technical_content.md`
(lines 281-287). -/
def qwenCompleteHeader (topic ts : List Char) : List Char :=
  "# Technical Content Package: ".data ++ topic ++ "\n\n".data
    ++ "**Generated:** ".data ++ ts ++ "\n".data
    ++ "**Perspective:** Data Scientist Technical Blog\n".data
    ++ "**Model:** DeepSeek R1 Distill Llama 70B\n\n".data
    ++ "---\n\n".data

/-- Full content of `complete_technical_content.md`. -/
def qwenCompleteFile (topic ts raw : List Char) : List Char :=
  qwenCompleteHeader topic ts ++ raw

/-- Content of `technical_blog_post.md` (lines 309-313). -/
def qwenBlogFile (topic ts body : List Char) : List Char :=
  "# ".data ++ topic ++ "\n\n".data
    ++ "*Technical blog post from a data scientist\x27s perspective*\n".data
    ++ "*Generated: ".data ++ ts ++ "*\n\n".data ++ body

/-- Content of `social_media_posts.md` (lines 351-354). -/
def qwenSocialFile (topic ts body : List Char) : List Char :=
  "# Social Media Content: ".data ++ topic ++ "\n\n".data
    ++ "*Generated: ".data ++ ts ++ "*\n\n".data ++ body

/-- Content of `midjourney_prompts.md` (lines 368-371). -/
def qwenMjFile (topic ts body : List Char) : List Char :=
  "# MidJourney Prompts: ".data ++ topic ++ "\n\n".data
    ++ "*Generated: ".data ++ ts ++ "*\n\n".data ++ body

/-- README status line for the blog file (lines 395-398). -/
def qwenReadmeBlogLine (b : Bool) : List Char :=
  if b then "- ✅ `technical_blog_post.md` - **MAIN TECHNICAL BLOG** (1000-1500 words)\n".data
  else "- ❌ `technical_blog_post.md` - Main technical blog (not extracted)\n".data

/-- README status line for the social file (lines 400-403). -/
def qwenReadmeSocialLine (b : Bool) : List Char :=
  if b then "- ✅ `social_media_posts.md` - LinkedIn & Twitter content\n".data
  else "- ❌ `social_media_posts.md` - Social media content (not extracted)\n".data

/-- README status line for the MidJourney file (lines 405-408). -/
def qwenReadmeMjLine (b : Bool) : List Char :=
  if b then "- ✅ `midjourney_prompts.md` - MidJourney visual prompts\n".data
  else "- ❌ `midjourney_prompts.md` - MidJourney prompts (not extracted)\n".data

/-- README success-rate line (line 391). -/
def qwenReadmeRateLine (files_created : Nat) : List Char :=
  "**Success Rate:** ".data ++ (toString files_created).data ++ "/5 files created\n\n".data

/-- Full text of the generated `README.md` (lines 387-424). -/
def qwenReadmeText (topic raw ts : List Char) : List Char :=
  "# Technical Content: ".data ++ topic ++ "\n\n".data
    ++ "**Generated:** ".data ++ ts ++ "\n".data
    ++ "**Style:** Data Scientist Technical Perspective\n".data
    ++ qwenReadmeRateLine (qwenFilesCreated raw)
    ++ "## 📁 Files:\n\n".data
    ++ qwenReadmeBlogLine (qwenExtractBlog raw).1
    ++ qwenReadmeSocialLine (qwenExtractSocial raw).1
    ++ qwenReadmeMjLine (qwenExtractMj raw).1
    ++ "- ✅ `complete_technical_content.md` - All content including social media\n".data
    ++ "- ✅ `README.md` - This file\n\n".data
    ++ "## 🔬 Content Features:\n\n".data
    ++ "✅ Technical depth with practical implementation\n".data
    ++ "✅ Code examples and technical details\n".data
    ++ "✅ Personal insights from data science experience\n".data
    ++ "✅ Real-world applications and challenges\n".data
    ++ "✅ Technical social media content\n".data
    ++ "✅ MidJourney prompts for professional blog visuals\n".data
    ++ (if qwenFilesCreated raw < 4 then
          "\n## ⚠️ Extraction Issues:\n\n".data
          ++ "Some content sections couldn\x27t be extracted. Check `complete_technical_content.md` for the full output.\n".data
          ++ "The content might be there but not properly formatted with the expected headers.\n".data
        else [])

/-- The `(filename, content)` pairs written by
`researcherqwen.save_content_to_files`, in write order: the complete file
always, one file per extracted section, then `README.md`. -/
def qwenSave (topic raw ts : List Char) : List (List Char × List Char) :=
  ("complete_technical_content.md".data, qwenCompleteFile topic ts raw)
    :: ((if (qwenExtractBlog raw).1 then
          [("technical_blog_post.md".data, qwenBlogFile topic ts (qwenExtractBlog raw).2)]
        else [])
      ++ (if (qwenExtractSocial raw).1 then
          [("social_media_posts.md".data, qwenSocialFile topic ts (qwenExtractSocial raw).2)]
        else [])
      ++ (if (qwenExtractMj raw).1 then
          [("midjourney_prompts.md".data, qwenMjFile topic ts (qwenExtractMj raw).2)]
        else [])
      ++ [("README.md".data, qwenReadmeText topic raw ts)])

/-! ## Topic slug (identical in `researcherqwen.py` line 263, `main.py`
line 163, `streamlit_app.py` line 646) -/

/-- Characters kept by the slug filter: `c.isalnum() or c in (' ', '-', '_')`. -/
def slugAllowed (c : Char) : Bool := c.isAlphanum || c == ' ' || c == '-' || c == '_'

/-- `"".join(c for c in topic if ...).rstrip()[:50]`. -/
def safeTopic (topic : List Char) : List Char :=
  (pyRstrip (topic.filter slugAllowed)).take 50

/-- Output directory name `f"technical_content/{safe_topic}_{timestamp}"`. -/
def qwenOutputDir (topic ts : List Char) : List Char :=
  "technical_content/".data ++ safeTopic topic ++ "_".data ++ ts

/-! ## `main.py` blog extraction (`save_content_to_files`, lines 174-187) -/

/-- The body written into `01_BLOG_POST_MEDIUM.md` after its fixed header.
Note the source takes `blog_end = content_str.find("# LINKEDIN POSTS")`
with no comparison against `blog_start`. -/
def mainBlogBody (content : List Char) : List Char :=
  match pyFind content blogMarker with
  | some pos =>
    let blog_start := pos + blogMarker.length
    let blog_end :=
      match pyFind content linkedinMarker with
      | some e => e
      | none =>
        match pyFind content twitterMarker with
        | some e => e
        | none => content.length
    pyStrip (pySlice content blog_start blog_end)
  | none =>
    "⚠️ Blog content extraction failed. Check complete_content.md for full output.\n\n".data
      ++ content

/-- Content of `main.py`'s `complete_content.md` (lines 190-194). -/
def mainCompleteFile (topic ts raw : List Char) : List Char :=
  "# Complete Content Package: ".data ++ topic ++ "\n\n".data
    ++ "**Generated on:** ".data ++ ts ++ "\n\n".data ++ "---\n\n".data ++ raw

/-! ## `researcherkilo.py` filesystem packaging (`save_content_to_files`,
lines 390-478) -/

/-- Content of kilo's `complete_multi_agent_content.md` (lines 421-436). -/
def kiloCompleteBody (topic research content social ts : List Char) : List Char :=
  "# Complete Multi-Agent Content Package: ".data ++ topic ++ "\n\n".data
    ++ "**Generated:** ".data ++ ts ++ "\n".data
    ++ "**Architecture:** Multi-Agent System\n".data
    ++ "**Research Model:** Qwen 3-32B\n".data
    ++ "**Content Model:** DeepSeek R1 Distill Llama 70B\n".data
    ++ "**Social Model:** DeepSeek R1 Distill Llama 70B\n\n".data
    ++ "---\n\n".data
    ++ "# RESEARCH FINDINGS\n\n".data ++ research
    ++ "\n\n---\n\n".data
    ++ "# TECHNICAL BLOG POST\n\n".data ++ content
    ++ "\n\n---\n\n".data
    ++ "# SOCIAL MEDIA CONTENT\n\n".data ++ social

/-- Text of kilo's generated `README.md` (lines 440-473). -/
def kiloReadmeText (topic ts : List Char) : List Char :=
  "# Multi-Agent Content Package: ".data ++ topic ++ "\n\n".data
    ++ "**Generated:** ".data ++ ts ++ "\n".data
    ++ "**Architecture:** Multi-Agent System with Specialized LLMs\n\n".data
    ++ "## 🤖 Agent Architecture:\n\n".data
    ++ "- **Research Agent**: Qwen 3-32B (Efficient research and data gathering)\n".data
    ++ "- **Content Writer**: DeepSeek R1 Distill Llama 70B (Creative technical writing)\n".data
    ++ "- **Social Media Specialist**: DeepSeek R1 Distill Llama 70B (Engaging social content)\n\n".data
    ++ "## 📁 Files Generated:\n\n".data
    ++ "- ✅ `01_research_findings.md` - Comprehensive research by Research Agent\n".data
    ++ "- ✅ `02_technical_blog_post.md` - **MAIN TECHNICAL BLOG** (1000-1500 words)\n".data
    ++ "- ✅ `03_social_media_content.md` - LinkedIn & Twitter content + MidJourney prompts\n".data
    ++ "- ✅ `complete_multi_agent_content.md` - All content in one file\n".data
    ++ "- ✅ `README.md` - This file\n\n".data
    ++ "## 🔬 Multi-Agent Workflow:\n\n".data
    ++ "1. **Research Phase**: Research Agent gathers academic papers, industry data, and technical examples\n".data
    ++ "2. **Content Creation**: Content Writer transforms research into comprehensive blog post\n".data
    ++ "3. **Social Adaptation**: Social Media Specialist creates platform-specific content\n\n".data
    ++ "## ✨ Content Features:\n\n".data
    ++ "✅ **Research-Backed**: Academic sources + industry data\n".data
    ++ "✅ **Technical Depth**: Code examples and practical implementation\n".data
    ++ "✅ **Multi-Platform**: Blog, LinkedIn, Twitter content\n".data
    ++ "✅ **Bilingual**: English and Turkish social media content\n".data
    ++ "✅ **Visual Ready**: MidJourney prompts for professional visuals\n".data
    ++ "✅ **Specialized LLMs**: Optimized models for each task\n\n".data
    ++ "## 🎯 Usage:\n\n".data
    ++ "- **For Blog**: Use `02_technical_blog_post.md`\n".data
    ++ "- **For Social Media**: Use `03_social_media_content.md`\n".data
    ++ "- **For Research**: Reference `01_research_findings.md`\n".data

/-- The `(filename, content)` pairs written to disk by
`researcherkilo.save_content_to_files`, in write order. -/
def kiloSave (topic research content social ts : List Char) : List (List Char × List Char) :=
  [ ("01_research_findings.md".data,
      "# Research Findings: ".data ++ topic ++ "\n\n".data
        ++ "*Generated by Research Agent (Qwen 3-32B) on: ".data ++ ts ++ "*\n\n".data
        ++ research),
    ("02_technical_blog_post.md".data,
      "# ".data ++ topic ++ "\n\n".data
        ++ "*Generated by Content Writer Agent (DeepSeek R1) on: ".data ++ ts ++ "*\n\n".data
        ++ content),
    ("03_social_media_content.md".data,
      "# Social Media Content: ".data ++ topic ++ "\n\n".data
        ++ "*Generated by Social Media Specialist (DeepSeek R1) on: ".data ++ ts ++ "*\n\n".data
        ++ social),
    ("complete_multi_agent_content.md".data, kiloCompleteBody topic research content social ts),
    ("README.md".data, kiloReadmeText topic ts) ]

/-! ## `streamlit_app.py` in-memory ZIP packaging (`create_download_zip`,
lines 722-798) -/

/-- Content of the ZIP's `complete_content_package.md` (lines 748-776). -/
def zipCompleteBody (topic research content social ts : List Char) : List Char :=
  "# Complete Multi-Agent Content Package: ".data ++ topic ++ "\n\n".data
    ++ "**Generated:** ".data ++ ts ++ "\n".data
    ++ "**Architecture:** Multi-Agent System\n".data
    ++ "**Research Model:** Qwen/Qwen3-32B\n".data
    ++ "**Content Model:** DeepSeek R1 Distill Llama 70B\n".data
    ++ "**Social Model:** DeepSeek R1 Distill Llama 70B\n\n".data
    ++ "---\n\n".data
    ++ "# RESEARCH FINDINGS\n\n".data ++ research
    ++ "\n\n---\n\n".data
    ++ "# TECHNICAL BLOG POST\n\n".data ++ content
    ++ "\n\n---\n\n".data
    ++ "# SOCIAL MEDIA CONTENT\n\n".data ++ social ++ "\n".data

/-- Text of the ZIP's `README.md` (lines 779-795). -/
def zipReadmeText (topic ts : List Char) : List Char :=
  "# Content Package: ".data ++ topic ++ "\n\n".data
    ++ "Generated: ".data ++ ts ++ "\n\n".data
    ++ "## Files:\n".data
    ++ "- `01_research_findings.md` - Research findings\n".data
    ++ "- `02_technical_blog_post.md` - Main blog post\n".data
    ++ "- `03_social_media_content.md` - Social media content\n".data
    ++ "- `complete_content_package.md` - Everything combined\n\n".data
    ++ "## Generated by:\n".data
    ++ "AI-Powered Multi-Agent Content Creator\n".data
    ++ "https://github.com/elandil2/blog-poster\n".data

/-- The `(filename, content)` entries written into the in-memory ZIP by
`create_download_zip`, in write order. -/
def zipSave (topic research content social ts : List Char) : List (List Char × List Char) :=
  [ ("01_research_findings.md".data,
      "# Research Findings: ".data ++ topic
        ++ "\n\n*Generated: ".data ++ ts ++ "*\n\n".data ++ research),
    ("02_technical_blog_post.md".data,
      "# ".data ++ topic ++ "\n\n*Generated: ".data ++ ts ++ "*\n\n".data ++ content),
    ("03_social_media_content.md".data,
      "# Social Media Content: ".data ++ topic
        ++ "\n\n*Generated: ".data ++ ts ++ "*\n\n".data ++ social),
    ("complete_content_package.md".data, zipCompleteBody topic research content social ts),
    ("README.md".data, zipReadmeText topic ts) ]

/-! ## Concrete inputs used by counterexamples and witnesses -/

/-- A blob whose two candidate end markers after the blog start appear in
the opposite of the source's scan order: `# X/TWITTER POSTS` (position 15)
is nearer than `# LINKEDIN POSTS` (position 33). -/
def exNearest : List Char :=
  blogMarker ++ "body".data ++ twitterMarker ++ "x".data ++ linkedinMarker ++ "y".data

/-- A blob whose blog body is exactly 100 characters after trimming. -/
def exBoundary : List Char := blogMarker ++ List.replicate 100 'a'

/-- A blob on which all three sections clear their thresholds. -/
def exFull : List Char :=
  blogMarker ++ List.replicate 101 'a' ++ linkedinMarker ++ List.replicate 40 'b'
    ++ twitterMarker ++ mjMarker ++ List.replicate 11 'd'

/-- A blob containing only the social section. -/
def exSocialOnly : List Char := linkedinMarker ++ " hi".data

/-- Out-of-order blob: `# LINKEDIN POSTS` precedes `# BLOG POST`. -/
def exOutOfOrder : List Char :=
  linkedinMarker ++ "\nX\n".data ++ blogMarker ++ "\n".data ++ List.replicate 120 'y'

/-- A blob containing none of the section markers. -/
def exNoMarkers : List Char := "just some text with no markers at all".data

/-- A topic whose filtered form is 60 characters with a space at index 49. -/
def exLongTopic : List Char := List.replicate 49 'a' ++ [' '] ++ List.replicate 10 'b'

/-- A topic consisting only of disallowed characters. -/
def exPunctTopic : List Char := ":::".data

/-- The spec's example topic. -/
def exDemoTopic : List Char := "Agentic AI: Workflows!".data

/-! ## Helper lemmas -/

/-- If `subFindAux` reports an occurrence at `j`, then `j` is at least the
running index and the needle really occurs there. -/
theorem subFindAux_found (needle : List Char) :
    ∀ (hay : List Char) (i j : Nat), subFindAux needle hay i = some j →
      i ≤ j ∧ needle.isPrefixOf (hay.drop (j - i)) = true
  | [], i, j, h => by
    simp only [subFindAux] at h
    split at h
    · next hp =>
      cases h
      exact ⟨le_refl _, by simpa using hp⟩
    · cases h
  | c :: t, i, j, h => by
    simp only [subFindAux] at h
    split at h
    · next hp =>
      cases h
      exact ⟨le_refl _, by simpa using hp⟩
    · next hp =>
      obtain ⟨hij, hpre⟩ := subFindAux_found needle t (i + 1) j h
      refine ⟨by omega, ?_⟩
      have hji : j - i = (j - (i + 1)) + 1 := by omega
      rw [hji, List.drop_succ_cons]
      exact hpre

/-- `pyFind` correctness: the needle occurs at the reported position. -/
theorem pyFind_found (hay needle : List Char) (j : Nat) (h : pyFind hay needle = some j) :
    needle.isPrefixOf (hay.drop j) = true := by
  have h2 := subFindAux_found needle hay 0 j h
  simpa using h2.2

/-- Unpack a successful Boolean prefix test into an append equation. -/
theorem isPrefixOf_exists (l₁ l₂ : List Char) (h : l₁.isPrefixOf l₂ = true) :
    ∃ t, l₂ = l₁ ++ t := by
  obtain ⟨t, ht⟩ := List.isPrefixOf_iff_prefix.mp h
  exact ⟨t, ht.symm⟩

/-- `lstrip` keeps a string whose first character is not whitespace. -/
theorem pyLstrip_cons_of_not_space (c : Char) (t : List Char) (h : pyIsSpace c = false) :
    pyLstrip (c :: t) = c :: t := by
  simp [pyLstrip, List.dropWhile_cons, h]

/-- `rstrip` keeps any rstrip-clean block at the front of a string. -/
theorem pyRstrip_append_keep (m rest : List Char) (h : pyRstrip m = m) :
    ∃ t, pyRstrip (m ++ rest) = m ++ t := by
  unfold pyRstrip
  rw [List.reverse_append, List.dropWhile_append]
  split
  · refine ⟨[], ?_⟩
    rw [List.append_nil]
    exact h
  · refine ⟨(rest.reverse.dropWhile pyIsSpace).reverse, ?_⟩
    rw [List.reverse_append, List.reverse_reverse]

/-- Stripping a string that starts with a marker whose first and last
characters are not whitespace keeps the marker as a prefix. -/
theorem pyStrip_keeps_marker (m rest : List Char) (c : Char) (tm : List Char)
    (hm : m = c :: tm) (hc : pyIsSpace c = false) (hr : pyRstrip m = m) :
    ∃ t, pyStrip (m ++ rest) = m ++ t := by
  unfold pyStrip
  rw [hm, List.cons_append, pyLstrip_cons_of_not_space c _ hc, ← List.cons_append, ← hm]
  exact pyRstrip_append_keep m rest hr

/-- Membership survives `pyRstrip`. -/
theorem mem_pyRstrip (c : Char) (s : List Char) (h : c ∈ pyRstrip s) : c ∈ s := by
  unfold pyRstrip at h
  rw [List.mem_reverse] at h
  have h2 := (List.dropWhile_sublist pyIsSpace).subset h
  rwa [List.mem_reverse] at h2

/-- Characterization of the blog end-marker loop: either no candidate's
first occurrence lies strictly after `start` and the result is the whole
length, or the result is the first occurrence of the first candidate (in
list order, not nearest-position order) whose first occurrence lies
strictly after `start`. -/
theorem qwenBlogEndLoop_priority (content : List Char) (start : Nat) :
    ∀ ms : List (List Char),
      (qwenBlogEndLoop content start ms = content.length ∧
        ∀ m ∈ ms, ∀ p, pyFind content m = some p → p ≤ start) ∨
      (∃ pre mk post, ms = pre ++ mk :: post ∧
        (∀ m ∈ pre, ∀ p, pyFind content m = some p → p ≤ start) ∧
        pyFind content mk = some (qwenBlogEndLoop content start ms) ∧
        start < qwenBlogEndLoop content start ms) := by
  intro ms
  induction ms with
  | nil =>
    left
    exact ⟨rfl, by simp⟩
  | cons m t ih =>
    cases hf : pyFind content m with
    | none =>
      have hstep : qwenBlogEndLoop content start (m :: t) = qwenBlogEndLoop content start t := by
        simp [qwenBlogEndLoop, hf]
      rcases ih with ⟨he, hall⟩ | ⟨pre, mk, post, hms, hpre, hfind, hlt⟩
      · left
        refine ⟨hstep.trans he, ?_⟩
        intro m' hm' p hp
        rcases List.mem_cons.mp hm' with rfl | hm2
        · rw [hf] at hp; cases hp
        · exact hall m' hm2 p hp
      · right
        refine ⟨m :: pre, mk, post, by rw [hms]; rfl, ?_, ?_, ?_⟩
        · intro m' hm' p hp
          rcases List.mem_cons.mp hm' with rfl | hm2
          · rw [hf] at hp; cases hp
          · exact hpre m' hm2 p hp
        · rw [hstep]; exact hfind
        · rw [hstep]; exact hlt
    | some p0 =>
      by_cases hlt0 : start < p0
      · right
        have hstep : qwenBlogEndLoop content start (m :: t) = p0 := by
          simp [qwenBlogEndLoop, hf, hlt0]
        refine ⟨[], m, t, rfl, by simp, ?_, ?_⟩
        · rw [hstep]; exact hf
        · rw [hstep]; exact hlt0
      · have hstep : qwenBlogEndLoop content start (m :: t) = qwenBlogEndLoop content start t := by
          simp [qwenBlogEndLoop, hf, hlt0]
        have hle : p0 ≤ start := by omega
        rcases ih with ⟨he, hall⟩ | ⟨pre, mk, post, hms, hpre, hfind, hlt⟩
        · left
          refine ⟨hstep.trans he, ?_⟩
          intro m' hm' p hp
          rcases List.mem_cons.mp hm' with rfl | hm2
          · rw [hf] at hp
            cases hp
            exact hle
          · exact hall m' hm2 p hp
        · right
          refine ⟨m :: pre, mk, post, by rw [hms]; rfl, ?_, ?_, ?_⟩
          · intro m' hm' p hp
            rcases List.mem_cons.mp hm' with rfl | hm2
            · rw [hf] at hp
              cases hp
              exact hle
            · exact hpre m' hm2 p hp
          · rw [hstep]; exact hfind
          · rw [hstep]; exact hlt

/-- A block equal to the middle chunk of an append is found there. -/
theorem chunk_here (l t : List Char) : ∃ a b, l ++ t = a ++ l ++ b := ⟨[], t, rfl⟩

/-- A chunk found in the tail of an append is found in the whole. -/
theorem chunk_there (x t l : List Char) (h : ∃ a b, t = a ++ l ++ b) :
    ∃ a b, x ++ t = a ++ l ++ b := by
  obtain ⟨a, b, hab⟩ := h
  exact ⟨x ++ a, b, by rw [hab]; simp [List.append_assoc]⟩

/-- A block equal to the final chunk of an append is found there. -/
theorem chunk_end (x l : List Char) : ∃ a b, x ++ l = a ++ l ++ b :=
  ⟨x, [], by rw [List.append_nil]⟩

/-- A chunk found in the front part of an append is found in the whole. -/
theorem chunk_left (t x l : List Char) (h : ∃ a b, t = a ++ l ++ b) :
    ∃ a b, t ++ x = a ++ l ++ b := by
  obtain ⟨a, b, hab⟩ := h
  exact ⟨a, b ++ x, by rw [hab]; simp [List.append_assoc]⟩

/-! ## Claim C1 -/

/-- C1 counterexample: in `exNearest` both `# X/TWITTER POSTS` (position
15) and `# LINKEDIN POSTS` (position 33) occur strictly after the blog
start position 11, yet the blog section is terminated at 33 — the first
candidate in the scan's priority order — not at the nearest position 15,
so the captured content swallows the whole Twitter section. -/
theorem c1_counterexample :
    pyFind exNearest blogMarker = some 0 ∧
    pyFind exNearest twitterMarker = some 15 ∧ 11 < 15 ∧
    pyFind exNearest linkedinMarker = some 33 ∧ 15 < 33 ∧
    qwenBlogEndLoop exNearest 11 qwenEndMarkersBlog = 33 ∧
    qwenBlogCapture exNearest = some ("body".data ++ twitterMarker ++ "x".data) := by
  decide

/-- C1 (amended): the blog section is terminated at the first occurrence
of the first candidate end marker in the fixed scan order
(`# LINKEDIN POSTS`, `# X/TWITTER POSTS`, `# MIDJOURNEY PROMPTS`) whose
first occurrence lies strictly after the start position — not necessarily
the nearest such occurrence; if no candidate end marker occurs strictly
after the start position, the section extends to the end of the raw blob. -/
theorem c1_theorem (content : List Char) (blog_start : Nat) :
    (qwenBlogEndLoop content blog_start qwenEndMarkersBlog = content.length ∧
      ∀ m ∈ qwenEndMarkersBlog, ∀ p, pyFind content m = some p → p ≤ blog_start) ∨
    (∃ pre mk post, qwenEndMarkersBlog = pre ++ mk :: post ∧
      (∀ m ∈ pre, ∀ p, pyFind content m = some p → p ≤ blog_start) ∧
      pyFind content mk = some (qwenBlogEndLoop content blog_start qwenEndMarkersBlog) ∧
      blog_start < qwenBlogEndLoop content blog_start qwenEndMarkersBlog) :=
  qwenBlogEndLoop_priority content blog_start qwenEndMarkersBlog

/-- C1 witness: the characterization instantiated on `exNearest`. -/
theorem c1_witness :
    (qwenBlogEndLoop exNearest 11 qwenEndMarkersBlog = exNearest.length ∧
      ∀ m ∈ qwenEndMarkersBlog, ∀ p, pyFind exNearest m = some p → p ≤ 11) ∨
    (∃ pre mk post, qwenEndMarkersBlog = pre ++ mk :: post ∧
      (∀ m ∈ pre, ∀ p, pyFind exNearest m = some p → p ≤ 11) ∧
      pyFind exNearest mk = some (qwenBlogEndLoop exNearest 11 qwenEndMarkersBlog) ∧
      11 < qwenBlogEndLoop exNearest 11 qwenEndMarkersBlog) :=
  c1_theorem exNearest 11

/-! ## Claim C2 -/

/-- C2: on the out-of-order blob, `main.py` takes the earlier
`# LINKEDIN POSTS` occurrence (position 0, before the blog start 30) as
the blog terminator, producing the inverted empty slice, while the
`researcherqwen.py` loop guard skips it and captures the full body. -/
theorem c2_theorem :
    pyFind exOutOfOrder linkedinMarker = some 0 ∧
    pyFind exOutOfOrder blogMarker = some 19 ∧
    mainBlogBody exOutOfOrder = [] ∧
    qwenBlogCapture exOutOfOrder = some (List.replicate 120 'y') := by
  decide

/-! ## Claim C3 -/

/-- C3 counterexample: a blog body of exactly 100 characters after
trimming (the claimed `min_length`) is rejected, because the source tests
`len(blog_content) > 100`, not `>= 100`. -/
theorem c3_counterexample :
    qwenBlogCapture exBoundary = some (List.replicate 100 'a') ∧
    (List.replicate 100 'a').length = 100 ∧
    qwenExtractBlog exBoundary = (false, []) := by
  decide

/-- C3 (amended): the acceptance test is strict: a captured, trimmed
section is reported present with its content exactly when its trimmed
length strictly exceeds the per-section threshold (100 blog, 50 social,
30 image prompts), i.e. is at least 101 / 51 / 31; at or below the
threshold it is reported not-present with empty content. -/
theorem c3_theorem (content : List Char) :
    (∀ c, qwenBlogCapture content = some c →
        (101 ≤ c.length → qwenExtractBlog content = (true, c)) ∧
        (c.length ≤ 100 → qwenExtractBlog content = (false, []))) ∧
    (∀ c, qwenSocialCapture content = some c →
        (51 ≤ c.length → qwenExtractSocial content = (true, c)) ∧
        (c.length ≤ 50 → qwenExtractSocial content = (false, []))) ∧
    (∀ c, qwenMjCapture content = some c →
        (31 ≤ c.length → qwenExtractMj content = (true, c)) ∧
        (c.length ≤ 30 → qwenExtractMj content = (false, []))) := by
  refine ⟨?_, ?_, ?_⟩
  · intro c hc
    constructor
    · intro hlen
      simp [qwenExtractBlog, hc, if_pos (by omega : 100 < c.length)]
    · intro hlen
      simp [qwenExtractBlog, hc, if_neg (by omega : ¬ 100 < c.length)]
  · intro c hc
    constructor
    · intro hlen
      simp [qwenExtractSocial, hc, if_pos (by omega : 50 < c.length)]
    · intro hlen
      simp [qwenExtractSocial, hc, if_neg (by omega : ¬ 50 < c.length)]
  · intro c hc
    constructor
    · intro hlen
      simp [qwenExtractMj, hc, if_pos (by omega : 30 < c.length)]
    · intro hlen
      simp [qwenExtractMj, hc, if_neg (by omega : ¬ 30 < c.length)]

/-- C3 witness: a 101-character blog body is accepted, a 100-character
one rejected. -/
theorem c3_witness :
    qwenExtractBlog exFull = (true, List.replicate 101 'a') ∧
    qwenExtractBlog exBoundary = (false, []) := by
  constructor
  · exact ((c3_theorem exFull).1 (List.replicate 101 'a') (by decide)).1 (by decide)
  · exact ((c3_theorem exBoundary).1 (List.replicate 100 'a') (by decide)).2 (by decide)

/-! ## Claim C4 -/

/-- C4 counterexample: the complete/raw file's content is not the raw
blob itself — a metadata header precedes it — so reading it back does not
yield the raw string unchanged. -/
theorem c4_counterexample :
    qwenCompleteFile "T".data "TS".data "raw blob".data ≠ "raw blob".data := by
  decide

/-- C4 (amended): exactly one complete/raw file is written on every
invocation regardless of extraction outcome, and its content is a fixed
metadata header followed by the raw blob verbatim — the raw blob is
recovered by dropping the header, but the file does not equal the raw
blob exactly.  The `main.py` variant likewise appends the raw blob after
a header. -/
theorem c4_theorem (topic ts raw : List Char) :
    (qwenSave topic raw ts).head? =
      some ("complete_technical_content.md".data, qwenCompleteHeader topic ts ++ raw) ∧
    ((qwenSave topic raw ts).map Prod.fst).count "complete_technical_content.md".data = 1 ∧
    (qwenCompleteFile topic ts raw).drop (qwenCompleteHeader topic ts).length = raw ∧
    (∃ h, mainCompleteFile topic ts raw = h ++ raw) := by
  refine ⟨rfl, ?_, ?_, ?_⟩
  · cases hb : (qwenExtractBlog raw).1 <;> cases hs : (qwenExtractSocial raw).1 <;>
      cases hm : (qwenExtractMj raw).1 <;>
      simp [qwenSave, hb, hs, hm, List.count_cons, List.count_append]
  · exact List.drop_left _ _
  · exact ⟨"# Complete Content Package: ".data ++ topic ++ "\n\n".data
      ++ "**Generated on:** ".data ++ ts ++ "\n\n".data ++ "---\n\n".data,
      by simp [mainCompleteFile, List.append_assoc]⟩

/-- C4 witness: the round trip on a concrete package. -/
theorem c4_witness :
    (qwenCompleteFile "T".data "TS".data "raw blob".data).drop
      (qwenCompleteHeader "T".data "TS".data).length = "raw blob".data :=
  ( c4_theorem "T".data "TS".data "raw blob".data).2.2.1

/-! ## Claim C5 -/

/-- C5 counterexample: the social and image-prompt captures start at the
marker itself, so the stored content begins with the marker text, unlike
the blog capture. -/
theorem c5_counterexample :
    qwenSocialCapture exSocialOnly = some (linkedinMarker ++ " hi".data) ∧
    qwenMjCapture exFull = some (mjMarker ++ List.replicate 11 'd') := by
  decide

/-- C5 (amended): only the blog capture begins immediately after its
start marker; the social capture's slice begins at the position of
`# LINKEDIN POSTS` itself (which really occurs there), and the
image-prompt capture even retains `# MIDJOURNEY PROMPTS` as a prefix of
the stored, trimmed content.  All captures are whitespace-trimmed. -/
theorem c5_theorem (content : List Char) :
    (∀ pos, pyFind content blogMarker = some pos →
      qwenBlogCapture content = some (pyStrip (pySlice content (pos + blogMarker.length)
        (qwenBlogEndLoop content (pos + blogMarker.length) qwenEndMarkersBlog)))) ∧
    (∀ pos, pyFind content linkedinMarker = some pos →
      linkedinMarker.isPrefixOf (content.drop pos) = true ∧
      qwenSocialCapture content =
        some (pyStrip (pySlice content pos (qwenSocialEndFull content pos)))) ∧
    (∀ c, qwenMjCapture content = some c → ∃ t, c = mjMarker ++ t) := by
  refine ⟨?_, ?_, ?_⟩
  · intro pos hp
    simp [qwenBlogCapture, hp]
  · intro pos hp
    refine ⟨pyFind_found content linkedinMarker pos hp, ?_⟩
    simp [qwenSocialCapture, hp]
  · intro c hc
    simp only [qwenMjCapture, Option.map_eq_some'] at hc
    obtain ⟨pos, hp, hcc⟩ := hc
    obtain ⟨rest, hrest⟩ := isPrefixOf_exists mjMarker (content.drop pos)
      (pyFind_found content mjMarker pos hp)
    rw [← hcc, hrest]
    exact pyStrip_keeps_marker mjMarker rest '#' " MIDJOURNEY PROMPTS".data
      (by decide) (by decide) (by decide)

/-- C5 witness: the MidJourney capture on `exFull` keeps its marker. -/
theorem c5_witness : ∃ t, mjMarker ++ List.replicate 11 'd' = mjMarker ++ t :=
  (c5_theorem exFull).2.2 (mjMarker ++ List.replicate 11 'd') (by decide)

/-! ## Claim C6 -/

/-- C6 counterexample: on a fully successful extraction the README
reports `4/5` although five files (complete, blog, social, prompts,
README) are actually produced: the reported count includes the complete
file but never the README, so it never equals the number of files
written and never reaches `5/5`. -/
theorem c6_counterexample :
    (qwenExtractBlog exFull).1 = true ∧
    (qwenExtractSocial exFull).1 = true ∧
    (qwenExtractMj exFull).1 = true ∧
    qwenFilesCreated exFull = 4 ∧
    (qwenSave "T".data exFull "TS".data).length = 5 ∧
    qwenFilesCreated exFull ≠ (qwenSave "T".data exFull "TS".data).length := by
  decide

/-- C6 (amended): each per-section README status line shows ✅ exactly
when that section was extracted and ❌ otherwise; the reported aggregate
count is `1` (the complete file) plus the number of extracted sections,
rendered over a fixed denominator of `5`, and it equals the number of
files actually produced minus one, since the README itself is written
but never counted. -/
theorem c6_theorem (topic raw ts : List Char) :
    ((qwenExtractBlog raw).1 = true →
      ∃ a b, qwenReadmeText topic raw ts = a ++ qwenReadmeBlogLine true ++ b) ∧
    ((qwenExtractBlog raw).1 = false →
      ∃ a b, qwenReadmeText topic raw ts = a ++ qwenReadmeBlogLine false ++ b) ∧
    ((qwenExtractSocial raw).1 = true →
      ∃ a b, qwenReadmeText topic raw ts = a ++ qwenReadmeSocialLine true ++ b) ∧
    ((qwenExtractSocial raw).1 = false →
      ∃ a b, qwenReadmeText topic raw ts = a ++ qwenReadmeSocialLine false ++ b) ∧
    ((qwenExtractMj raw).1 = true →
      ∃ a b, qwenReadmeText topic raw ts = a ++ qwenReadmeMjLine true ++ b) ∧
    ((qwenExtractMj raw).1 = false →
      ∃ a b, qwenReadmeText topic raw ts = a ++ qwenReadmeMjLine false ++ b) ∧
    (∃ a b, qwenReadmeText topic raw ts =
      a ++ qwenReadmeRateLine (qwenFilesCreated raw) ++ b) ∧
    qwenFilesCreated raw + 1 = (qwenSave topic raw ts).length := by
  refine ⟨?_, ?_, ?_, ?_, ?_, ?_, ?_, ?_⟩
  · intro h
    unfold qwenReadmeText
    rw [h]
    iterate 12 apply chunk_left
    exact chunk_end _ _
  · intro h
    unfold qwenReadmeText
    rw [h]
    iterate 12 apply chunk_left
    exact chunk_end _ _
  · intro h
    unfold qwenReadmeText
    rw [h]
    iterate 11 apply chunk_left
    exact chunk_end _ _
  · intro h
    unfold qwenReadmeText
    rw [h]
    iterate 11 apply chunk_left
    exact chunk_end _ _
  · intro h
    unfold qwenReadmeText
    rw [h]
    iterate 10 apply chunk_left
    exact chunk_end _ _
  · intro h
    unfold qwenReadmeText
    rw [h]
    iterate 10 apply chunk_left
    exact chunk_end _ _
  · unfold qwenReadmeText
    iterate 14 apply chunk_left
    exact chunk_end _ _
  · cases hb : (qwenExtractBlog raw).1 <;> cases hs : (qwenExtractSocial raw).1 <;>
      cases hm : (qwenExtractMj raw).1 <;>
      simp [qwenSave, qwenFilesCreated, hb, hs, hm]

/-- C6 witness: the ✅ blog line is present in the README of the fully
extracted package. -/
theorem c6_witness :
    ∃ a b, qwenReadmeText "T".data exFull "TS".data =
      a ++ qwenReadmeBlogLine true ++ b :=
  ( c6_theorem "T".data exFull "TS".data).1 (by decide)

/-! ## Claim C7 -/

/-- C7: extraction is a total function of the raw blob: a section that is
not reported present always carries empty content, a blob in which a
start marker does not occur yields not-present with empty content for
that section, and the raw blob always survives verbatim at the end of
the always-written complete file. -/
theorem c7_theorem (raw topic ts : List Char) :
    ((qwenExtractBlog raw).1 = false → (qwenExtractBlog raw).2 = []) ∧
    ((qwenExtractSocial raw).1 = false → (qwenExtractSocial raw).2 = []) ∧
    ((qwenExtractMj raw).1 = false → (qwenExtractMj raw).2 = []) ∧
    (pyFind raw blogMarker = none → qwenExtractBlog raw = (false, [])) ∧
    (pyFind raw linkedinMarker = none → qwenExtractSocial raw = (false, [])) ∧
    (pyFind raw mjMarker = none → qwenExtractMj raw = (false, [])) ∧
    ((qwenSave topic raw ts).head? =
      some ("complete_technical_content.md".data, qwenCompleteHeader topic ts ++ raw)) := by
  refine ⟨?_, ?_, ?_, ?_, ?_, ?_, rfl⟩
  · cases h : qwenBlogCapture raw <;> simp [qwenExtractBlog, h]
    split <;> simp_all
  · cases h : qwenSocialCapture raw <;> simp [qwenExtractSocial, h]
    split <;> simp_all
  · cases h : qwenMjCapture raw <;> simp [qwenExtractMj, h]
    split <;> simp_all
  · intro h
    simp [qwenExtractBlog, qwenBlogCapture, h]
  · intro h
    simp [qwenExtractSocial, qwenSocialCapture, h]
  · intro h
    simp [qwenExtractMj, qwenMjCapture, h]

/-- C7 witness: on a markerless blob every section is not-present with
empty content. -/
theorem c7_witness : qwenExtractBlog exNoMarkers = (false, []) :=
  (c7_theorem exNoMarkers "T".data "TS".data).2.2.2.1 (by decide)

/-! ## Claim C8 -/

/-- C8: the slug is a pure function of the topic (it is a Lean function,
so call-count independence is by construction); every character of the
slug is alphanumeric, space, hyphen or underscore; characters such as
`:` and `!` are removed; and the slug is at most 50 characters long. -/
theorem c8_theorem (topic : List Char) :
    (safeTopic topic).length ≤ 50 ∧
    (∀ c ∈ safeTopic topic, slugAllowed c = true) ∧
    (∀ c ∈ safeTopic topic, c ≠ ':' ∧ c ≠ '!') := by
  have hmem : ∀ c ∈ safeTopic topic, slugAllowed c = true := by
    intro c hc
    have h1 : c ∈ pyRstrip (topic.filter slugAllowed) :=
      List.take_subset 50 _ hc
    have h2 : c ∈ topic.filter slugAllowed := mem_pyRstrip c _ h1
    exact (List.mem_filter.mp h2).2
  refine ⟨List.length_take_le 50 _, hmem, ?_⟩
  intro c hc
  have h := hmem c hc
  constructor
  · rintro rfl
    exact absurd h (by decide)
  · rintro rfl
    exact absurd h (by decide)

/-- C8 witness: on the spec's example topic the slug is within bounds and
its characters pass the filter. -/
theorem c8_witness :
    (safeTopic exDemoTopic).length ≤ 50 ∧ slugAllowed 'A' = true :=
  ⟨(c8_theorem exDemoTopic).1, (c8_theorem exDemoTopic).2.1 'A' (by decide)⟩

/-! ## Claim C9 -/

/-- C9 counterexample: the filesystem variant and the ZIP variant do not
produce the same filename set (the combined-package file is named
`complete_multi_agent_content.md` on disk but `complete_content_package.md`
in the ZIP), and even a shared filename carries different bytes (the
generated headers differ). -/
theorem c9_counterexample :
    (kiloSave "T".data "R".data "C".data "S".data "TS".data).map Prod.fst ≠
      (zipSave "T".data "R".data "C".data "S".data "TS".data).map Prod.fst ∧
    "complete_multi_agent_content.md".data ∈
      (kiloSave "T".data "R".data "C".data "S".data "TS".data).map Prod.fst ∧
    "complete_multi_agent_content.md".data ∉
      (zipSave "T".data "R".data "C".data "S".data "TS".data).map Prod.fst ∧
    List.lookup "01_research_findings.md".data
        (kiloSave "T".data "R".data "C".data "S".data "TS".data) ≠
      List.lookup "01_research_findings.md".data
        (zipSave "T".data "R".data "C".data "S".data "TS".data) := by
  decide

/-- C9 (amended): both variants produce five files and agree on the three
numbered section filenames, whose contents carry the corresponding
section payload verbatim as a suffix in both sinks; but the content
mappings are not identical: the combined-package filename differs between
the two variants, as do the generated header lines. -/
theorem c9_theorem (topic research content social ts : List Char) :
    (kiloSave topic research content social ts).map Prod.fst =
      ["01_research_findings.md".data, "02_technical_blog_post.md".data,
        "03_social_media_content.md".data, "complete_multi_agent_content.md".data,
        "README.md".data] ∧
    (zipSave topic research content social ts).map Prod.fst =
      ["01_research_findings.md".data, "02_technical_blog_post.md".data,
        "03_social_media_content.md".data, "complete_content_package.md".data,
        "README.md".data] ∧
    (∃ h, List.lookup "01_research_findings.md".data
        (kiloSave topic research content social ts) = some (h ++ research)) ∧
    (∃ h, List.lookup "01_research_findings.md".data
        (zipSave topic research content social ts) = some (h ++ research)) ∧
    (∃ h, List.lookup "02_technical_blog_post.md".data
        (kiloSave topic research content social ts) = some (h ++ content)) ∧
    (∃ h, List.lookup "02_technical_blog_post.md".data
        (zipSave topic research content social ts) = some (h ++ content)) ∧
    (∃ h, List.lookup "03_social_media_content.md".data
        (kiloSave topic research content social ts) = some (h ++ social)) ∧
    (∃ h, List.lookup "03_social_media_content.md".data
        (zipSave topic research content social ts) = some (h ++ social)) := by
  refine ⟨rfl, rfl, ?_, ?_, ?_, ?_, ?_, ?_⟩
  · exact ⟨"# Research Findings: ".data ++ topic ++ "\n\n".data
      ++ "*Generated by Research Agent (Qwen 3-32B) on: ".data ++ ts ++ "*\n\n".data,
      by simp +decide [kiloSave, List.lookup, List.append_assoc]⟩
  · exact ⟨"# Research Findings: ".data ++ topic
      ++ "\n\n*Generated: ".data ++ ts ++ "*\n\n".data,
      by simp +decide [zipSave, List.lookup, List.append_assoc]⟩
  · exact ⟨"# ".data ++ topic ++ "\n\n".data
      ++ "*Generated by Content Writer Agent (DeepSeek R1) on: ".data ++ ts ++ "*\n\n".data,
      by simp +decide [kiloSave, List.lookup, List.append_assoc]⟩
  · exact ⟨"# ".data ++ topic ++ "\n\n*Generated: ".data ++ ts ++ "*\n\n".data,
      by simp +decide [zipSave, List.lookup, List.append_assoc]⟩
  · exact ⟨"# Social Media Content: ".data ++ topic ++ "\n\n".data
      ++ "*Generated by Social Media Specialist (DeepSeek R1) on: ".data ++ ts ++ "*\n\n".data,
      by simp +decide [kiloSave, List.lookup, List.append_assoc]⟩
  · exact ⟨"# Social Media Content: ".data ++ topic
      ++ "\n\n*Generated: ".data ++ ts ++ "*\n\n".data,
      by simp +decide [zipSave, List.lookup, List.append_assoc]⟩

/-- C9 witness: the filename lists at a concrete package. -/
theorem c9_witness :
    (kiloSave "T".data "R".data "C".data "S".data "TS".data).map Prod.fst =
      ["01_research_findings.md".data, "02_technical_blog_post.md".data,
        "03_social_media_content.md".data, "complete_multi_agent_content.md".data,
        "README.md".data] :=
  ( c9_theorem "T".data "R".data "C".data "S".data "TS".data).1

/-! ## Claim C10 -/

/-- C10: because `rstrip` runs before the 50-character truncation, a
topic whose filtered form is longer than 50 characters can yield a slug
ending in a space (`exLongTopic` does); and a topic with no allowed
characters yields the empty slug, so the output directory name
degenerates to `_` followed by the timestamp. -/
theorem c10_theorem :
    (50 < (pyRstrip (exLongTopic.filter slugAllowed)).length ∧
      (safeTopic exLongTopic).getLast? = some ' ') ∧
    (∀ topic ts : List Char, (∀ c ∈ topic, slugAllowed c = false) →
      safeTopic topic = [] ∧
      qwenOutputDir topic ts = "technical_content/_".data ++ ts) := by
  constructor
  · exact ⟨by decide, by decide⟩
  · intro topic ts h
    have hfilter : topic.filter slugAllowed = [] := by
      rw [List.filter_eq_nil_iff]
      intro a ha
      simp [h a ha]
    have hslug : safeTopic topic = [] := by
      simp [safeTopic, hfilter, pyRstrip]
    refine ⟨hslug, ?_⟩
    rw [qwenOutputDir, hslug]
    simp

/-- C10 witness: the all-punctuation topic produces the degenerate
directory name. -/
theorem c10_witness :
    safeTopic exPunctTopic = [] ∧
    qwenOutputDir exPunctTopic "20250101_000000".data =
      "technical_content/_".data ++ "20250101_000000".data :=
  c10_theorem.2 exPunctTopic "20250101_000000".data (by decide)
